import Mathlib

/-!
Verification of the CloudWatch Logs output plugin
(plugins/outputs/cloudwatchlogs/cloudwatchlogs.go).

The Go code is shallowly embedded: Go maps become association lists,
pointer mutation becomes explicit state passing (a mutation through a
map-stored pointer becomes an update of the stored value), durations are
nanosecond counts, and the external encoding/json marshaller is modelled
at its interface (deterministic output; it fails exactly on NaN or
infinite float values and on values of unsupported dynamic type, which
matches its documented behaviour for the value shapes that occur here).
Float64 payloads are modelled as exact rationals plus the three
non-finite values; the rounding of large integers to float64 is not
modelled, since no claim depends on float precision.
-/

/-- Payloads of 64-bit floats, abstracted: an exact rational value or
one of the non-finite values. Rounding is not modelled. -/
inductive F64 where
  | val (q : Rat)
  | nan
  | inf
  | negInf
deriving DecidableEq, Repr

/-- Dynamic (interface\x7b\x7d) values a telegraf metric field can hold,
restricted to the cases the switch in getLogEventFromMetric names, plus
goOther for every unsupported dynamic type (carrying its type name). -/
inductive GoValue where
  | goInt (v : Int)
  | goInt32 (v : Int)
  | goInt64 (v : Int)
  | goUInt (v : Nat)
  | goUInt32 (v : Nat)
  | goUInt64 (v : Nat)
  | goFloat64 (v : F64)
  | goBool (b : Bool)
  | goString (s : String)
  | goTime (unixSec : Int)
  | goOther (typeName : String)
deriving DecidableEq, Repr

/-- Target identifies a destination: (group, stream) pair, used as map key. -/
structure Target where
  Group : String
  Stream : String
deriving DecidableEq, Repr

/-- A log event: (message, timestamp) pair. Covers both structuredLogEvent
and the generic logs.LogEvent interface; timestamps are abstract integers. -/
structure LogEvent where
  msg : String
  time : Int
deriving DecidableEq, Repr

/-- A telegraf metric: name, tag map, field map, timestamp.
Go maps are modelled as association lists with replace-on-insert. -/
structure Metric where
  name : String
  tags : List (String × String)
  fields : List (String × GoValue)
  time : Int
deriving DecidableEq, Repr

-- Duration constants, in nanoseconds, as in Go time package.
def timeNanosecond : Nat := 1
def timeMillisecond : Nat := 1000000
def timeSecond : Nat := 1000000000
def timeMinute : Nat := 60 * timeSecond
def timeHour : Nat := 60 * timeMinute

-- Constants from the const block of cloudwatchlogs.go.
def LogGroupNameTag : String := "log_group_name"
def LogStreamNameTag : String := "log_stream_name"
def LogTimestampField : String := "log_timestamp"
def LogEntryField : String := "value"
def defaultFlushTimeout : Nat := 5 * timeSecond
def maxRetryTimeout : Nat := 14 * 24 * timeHour + 10 * timeMinute
def metricRetryTimeout : Nat := 2 * timeMinute
def attributesInFields : String := "attributesInFields"

/-- logs.ErrOutputStopped, the terminal error Publish returns once stopped. -/
def ErrOutputStopped : String := "Output plugin stopped"

-- Association-list operations mirroring Go map lookup / delete / insert.

def assocLookup (l : List (String × α)) (k : String) : Option α :=
  match l with
  | [] => none
  | (k', v) :: rest => if k' = k then some v else assocLookup rest k

def assocRemove (l : List (String × α)) (k : String) : List (String × α) :=
  match l with
  | [] => []
  | (k', v) :: rest => if k' = k then assocRemove rest k else (k', v) :: assocRemove rest k

def assocInsert (l : List (String × α)) (k : String) (v : α) : List (String × α) :=
  match l with
  | [] => [(k, v)]
  | (k', v') :: rest => if k' = k then (k, v) :: rest else (k', v') :: assocInsert rest k v

-- Metric accessors mirroring telegraf.Metric methods.

def Metric.lookupTag (m : Metric) (k : String) : Option String := assocLookup m.tags k

def Metric.removeTag (m : Metric) (k : String) : Metric :=
  { m with tags := assocRemove m.tags k }

def Metric.lookupField (m : Metric) (k : String) : Option GoValue := assocLookup m.fields k

def Metric.removeField (m : Metric) (k : String) : Metric :=
  { m with fields := assocRemove m.fields k }

def Metric.hasField (m : Metric) (k : String) : Bool := (m.lookupField k).isSome

-- String helpers mirroring strings.HasPrefix / HasSuffix / Contains,
-- written over character lists so the kernel can evaluate them.

def listStartsWith : List Char → List Char → Bool
  | _, [] => true
  | [], _ :: _ => false
  | c :: s, p :: ps => c = p && listStartsWith s ps

def listContainsSub : List Char → List Char → Bool
  | [], pat => listStartsWith [] pat
  | c :: rest, pat => listStartsWith (c :: rest) pat || listContainsSub rest pat

def strStartsWith (s pat : String) : Bool := listStartsWith s.toList pat.toList

def strEndsWith (s pat : String) : Bool :=
  listStartsWith s.toList.reverse pat.toList.reverse

def strContainsSub (s pat : String) : Bool := listContainsSub s.toList pat.toList

/-- Modelled from the spec: the pusher (pusher.go is not under src/).
It owns a bounded event queue with one blocking and one non-blocking
enqueue discipline, a retry duration, and the flush interval it was
created with; the flush/delivery cycle itself is outside every claim and
is not modelled. The queue capacity is a field because its concrete
value is unspecified. -/
structure Pusher where
  target : Target
  flushInterval : Nat
  retryDuration : Nat
  queueCap : Nat
  queue : List LogEvent
deriving DecidableEq, Repr

/-- Modelled from the spec: blocking enqueue never loses the event; the
caller suspends until space frees, so the event always ends up queued
(suspension itself is not representable in a pure embedding). -/
def Pusher.addEventBlocking (p : Pusher) (e : LogEvent) : Pusher :=
  { p with queue := p.queue ++ [e] }

/-- Modelled from the spec: non-blocking enqueue drops the newest event
when the queue is full and returns immediately. -/
def Pusher.addEventNonBlocking (p : Pusher) (e : LogEvent) : Pusher :=
  if p.queue.length < p.queueCap then { p with queue := p.queue ++ [e] }
  else p

/-- cwDest: a pusher plus the EMF-mode and stopped flags. serviceIsCWL
records whether the type assertion cd.Service.(*cloudwatchlogs.CloudWatchLogs)
succeeds (it always does for destinations built by getDest);
emfHeaderCount counts how many times the x-amzn-logs-format header
handler was pushed onto the client build-handler list. -/
structure CwDest where
  pusher : Pusher
  isEMF : Bool
  stopped : Bool
  serviceIsCWL : Bool
  emfHeaderCount : Nat
deriving DecidableEq, Repr

/-- Which enqueue discipline cwDest.AddEvent dispatched to. -/
inductive EnqueueKind where
  | blocking
  | nonBlocking
deriving DecidableEq, Repr

/-- cwDest.switchToEMF: under the lock, if not yet EMF, set the flag and
push the x-amzn-logs-format: json/emf header handler (when the service
is the CloudWatch Logs client). -/
def CwDest.switchToEMF (cd : CwDest) : CwDest :=
  if cd.isEMF then cd
  else
    { cd with
      isEMF := true
      emfHeaderCount := if cd.serviceIsCWL then cd.emfHeaderCount + 1 else cd.emfHeaderCount }

/-- cwDest.AddEvent: non-blocking enqueue when in EMF mode (drop events
for metric path logs when queue is full), blocking enqueue otherwise.
Also reports which discipline was used. -/
def CwDest.addEvent (cd : CwDest) (e : LogEvent) : EnqueueKind × CwDest :=
  if cd.isEMF then (EnqueueKind.nonBlocking, { cd with pusher := cd.pusher.addEventNonBlocking e })
  else (EnqueueKind.blocking, { cd with pusher := cd.pusher.addEventBlocking e })

/-- Detection applied by Publish to each message while in plain mode:
starts with an opening brace, ends with a closing brace, and contains
the quoted CloudWatchMetrics key. -/
def emfPayloadDetect (msg : String) : Bool :=
  strStartsWith msg "\x7b" && strEndsWith msg "\x7d" &&
    strContainsSub msg "\"CloudWatchMetrics\""

/-- One iteration of the loop in cwDest.Publish: possibly auto-switch to
EMF, then AddEvent. -/
def CwDest.publishOne (cd : CwDest) (e : LogEvent) : CwDest :=
  let cd1 := if !cd.isEMF && emfPayloadDetect e.msg then cd.switchToEMF else cd
  (cd1.addEvent e).2

/-- cwDest.Publish: process every event, then report ErrOutputStopped
when the destination is stopped, success otherwise. -/
def CwDest.publish (cd : CwDest) (events : List LogEvent) : Option String × CwDest :=
  let cd1 := events.foldl CwDest.publishOne cd
  if cd1.stopped then (some ErrOutputStopped, cd1) else (none, cd1)

/-- cwDest.Stop: stop the pusher and set the stopped flag. -/
def CwDest.stop (cd : CwDest) : CwDest := { cd with stopped := true }

/-- The plugin state: the configured default group/stream names, the
flush interval, and the Target-keyed destination map. Credential and
endpoint settings do not affect any claim-observable behaviour and are
omitted from the state (they only parameterise the external client). -/
structure CloudWatchLogs where
  LogGroupName : String
  LogStreamName : String
  forceFlushInterval : Nat
  cwDests : List (Target × CwDest)
deriving DecidableEq, Repr

def findDest (l : List (Target × CwDest)) (t : Target) : Option CwDest :=
  match l with
  | [] => none
  | (t', d) :: rest => if t' = t then some d else findDest rest t

def setDest (l : List (Target × CwDest)) (t : Target) (d : CwDest) : List (Target × CwDest) :=
  match l with
  | [] => [(t, d)]
  | (t', d') :: rest => if t' = t then (t, d) :: rest else (t', d') :: setDest rest t d

/-- The destination getDest constructs on a map miss: a fresh pusher
built with the flush interval and the default (log-traffic) retry
timeout, wrapped in a cwDest with both flags clear. The pusher is bound
to the CloudWatch Logs client, so serviceIsCWL is true. queueCap is the
unspecified pusher channel capacity, kept as a parameter. -/
def newCwDest (c : CloudWatchLogs) (t : Target) (queueCap : Nat) : CwDest :=
  { pusher :=
      { target := t
        flushInterval := c.forceFlushInterval
        retryDuration := maxRetryTimeout
        queueCap := queueCap
        queue := [] }
    isEMF := false
    stopped := false
    serviceIsCWL := true
    emfHeaderCount := 0 }

/-- CloudWatchLogs.getDest: return the existing destination for the
target if present; otherwise build a client and pusher, insert the new
destination into cwDests and return it. Never returns nil. -/
def CloudWatchLogs.getDest (c : CloudWatchLogs) (t : Target) (queueCap : Nat) :
    CwDest × CloudWatchLogs :=
  match findDest c.cwDests t with
  | some cwd => (cwd, c)
  | none =>
    let cwd := newCwDest c t queueCap
    (cwd, { c with cwDests := setDest c.cwDests t cwd })

/-- CloudWatchLogs.CreateDest: empty group and stream arguments fall
back to the configured defaults before the Target is formed. -/
def CloudWatchLogs.createDest (c : CloudWatchLogs) (group stream : String) (queueCap : Nat) :
    CwDest × CloudWatchLogs :=
  let group1 := if group = "" then c.LogGroupName else group
  let stream1 := if stream = "" then c.LogStreamName else stream
  c.getDest { Group := group1, Stream := stream1 } queueCap

/-- CloudWatchLogs.getTargetFromMetric: the group tag is mandatory (its
absence is an error); the stream tag is optional and falls back to the
configured default when absent (the zero-valued logStream makes the Go
else-if branch always taken on the not-ok path). Both tags, when
present, are removed from the metric. -/
def CloudWatchLogs.getTargetFromMetric (c : CloudWatchLogs) (m : Metric) :
    Except String (Target × Metric) :=
  match m.lookupTag LogGroupNameTag with
  | none =>
    Except.error ("structuredlog receive a metric with name " ++ m.name ++
      " without log group name")
  | some logGroup =>
    let m1 := m.removeTag LogGroupNameTag
    match m.lookupTag LogStreamNameTag with
    | some logStream => Except.ok ({ Group := logGroup, Stream := logStream }, m1.removeTag LogStreamNameTag)
    | none => Except.ok ({ Group := logGroup, Stream := c.LogStreamName }, m1)

/-- The switch statement converting one field value: every numeric type
becomes a float64, bool and string pass through, time.Time becomes its
Unix seconds as float64, anything else is an error (nil result). -/
def convertFieldValue : GoValue → Option GoValue
  | GoValue.goInt v => some (GoValue.goFloat64 (F64.val v))
  | GoValue.goInt32 v => some (GoValue.goFloat64 (F64.val v))
  | GoValue.goInt64 v => some (GoValue.goFloat64 (F64.val v))
  | GoValue.goUInt v => some (GoValue.goFloat64 (F64.val v))
  | GoValue.goUInt32 v => some (GoValue.goFloat64 (F64.val v))
  | GoValue.goUInt64 v => some (GoValue.goFloat64 (F64.val v))
  | GoValue.goFloat64 v => some (GoValue.goFloat64 v)
  | GoValue.goBool b => some (GoValue.goBool b)
  | GoValue.goString s => some (GoValue.goString s)
  | GoValue.goTime u => some (GoValue.goFloat64 (F64.val u))
  | GoValue.goOther _ => none

/-- The fields loop of getLogEventFromMetric: convert every remaining
field into the content map, failing the whole record on the first
unsupported value. -/
def convertFields (content : List (String × GoValue)) :
    List (String × GoValue) → Option (List (String × GoValue))
  | [] => some content
  | (k, v) :: rest =>
    match convertFieldValue v with
    | some value => convertFields (assocInsert content k value) rest
    | none => none

/-- The attributesInFields promotion step: fields named by the
comma-separated allow-list tag are copied verbatim into the content map
and removed from the metric; the tag itself is then removed. Returns
the content map so far and the reduced metric. -/
def promoteAttributes (m : Metric) : List (String × GoValue) × Metric :=
  match m.lookupTag attributesInFields with
  | some val =>
    let step := (val.splitOn ",").foldl
      (fun (acc : List (String × GoValue) × Metric) attr =>
        match acc.2.lookupField attr with
        | some fieldVal => (assocInsert acc.1 attr fieldVal, acc.2.removeField attr)
        | none => acc)
      ([], m)
    (step.1, step.2.removeTag attributesInFields)
  | none => ([], m)

/-- The content map of a metric-shaped record: promoted fields, then all
remaining tags as strings, then all remaining fields converted; none
when some remaining field has an unsupported type. -/
def buildContent (m : Metric) : Option (List (String × GoValue)) :=
  let pm := promoteAttributes m
  let content1 := pm.2.tags.foldl (fun acc kv => assocInsert acc kv.1 (GoValue.goString kv.2)) pm.1
  convertFields content1 pm.2.fields

/-- A minimal JSON string quoting (escaping of quotes and backslashes
inside the value is abstracted; no claim observes the serialized text). -/
def jsonQuote (s : String) : String := "\"" ++ s ++ "\""

/-- Modelled at the interface of the external encoding/json package:
serialization of one dynamic value. It fails exactly on non-finite
floats (json: unsupported value) and on values of unsupported dynamic
type (json: unsupported type), per the encoding/json documentation. -/
def marshalValue : GoValue → Option String
  | GoValue.goInt v => some (toString v)
  | GoValue.goInt32 v => some (toString v)
  | GoValue.goInt64 v => some (toString v)
  | GoValue.goUInt v => some (toString v)
  | GoValue.goUInt32 v => some (toString v)
  | GoValue.goUInt64 v => some (toString v)
  | GoValue.goFloat64 (F64.val q) => some (toString q)
  | GoValue.goFloat64 F64.nan => none
  | GoValue.goFloat64 F64.inf => none
  | GoValue.goFloat64 F64.negInf => none
  | GoValue.goBool b => some (cond b "true" "false")
  | GoValue.goString s => some (jsonQuote s)
  | GoValue.goTime u => some (jsonQuote ("time:" ++ toString u))
  | GoValue.goOther _ => none

/-- Serialize the entries of a content map in order. -/
def marshalEntries : List (String × GoValue) → Option (List String)
  | [] => some []
  | (k, v) :: rest =>
    match marshalValue v, marshalEntries rest with
    | some sv, some srest => some ((jsonQuote k ++ ":" ++ sv) :: srest)
    | _, _ => none

/-- Lexicographic code-point comparison of strings (the byte order
encoding/json sorts keys by; identical on the ASCII keys that occur). -/
def charListLe : List Char → List Char → Bool
  | [], _ => true
  | _ :: _, [] => false
  | c :: cs, d :: ds =>
    if c.toNat < d.toNat then true
    else if d.toNat < c.toNat then false
    else charListLe cs ds

def strLe (a b : String) : Bool := charListLe a.toList b.toList

/-- Insertion step for sorting content entries by key, as encoding/json
sorts map keys. -/
def insertSortedEntry (e : String × GoValue) : List (String × GoValue) → List (String × GoValue)
  | [] => [e]
  | hd :: tl => if strLe e.1 hd.1 then e :: hd :: tl else hd :: insertSortedEntry e tl

def sortEntries (l : List (String × GoValue)) : List (String × GoValue) :=
  l.foldr insertSortedEntry []

/-- json.Marshal of a map\x5bstring\x5dinterface\x7b\x7d: keys sorted,
entries joined into one object; fails when any value is unsupported. -/
def marshalContent (content : List (String × GoValue)) : Option String :=
  match marshalEntries (sortEntries content) with
  | some entries => some ("\x7b" ++ String.intercalate "," entries ++ "\x7d")
  | none => none

/-- CloudWatchLogs.getLogEventFromMetric. A record with the raw value
field uses it verbatim when it is a string and is dropped otherwise;
a metric-shaped record is converted to a content map and serialized.
A serialization error is only logged: the message then becomes the
string of the nil byte slice, i.e. the empty string, and an event is
still produced. An unsupported field type drops the record. -/
def CloudWatchLogs.getLogEventFromMetric (_c : CloudWatchLogs) (m : Metric) :
    Option LogEvent :=
  if m.hasField LogEntryField then
    match m.lookupField LogEntryField with
    | some (GoValue.goString s) => some { msg := s, time := m.time }
    | _ => none
  else
    match buildContent m with
    | none => none
    | some content =>
      let message := match marshalContent content with
                     | some js => js
                     | none => ""
      some { msg := message, time := m.time }

/-- CloudWatchLogs.writeMetricAsStructuredLog. A failing target lookup
is logged but does not return: execution continues with the zero-valued
Target, so getDest is still called (and, getDest never being nil, the
dead nil-check is not modelled). The destination is switched to EMF,
its retry duration set to metricRetryTimeout, and the event, when one
is produced, is enqueued; all destination mutations happen through the
stored pointer, modelled as updating the map entry. -/
def CloudWatchLogs.writeMetricAsStructuredLog (c : CloudWatchLogs) (m : Metric)
    (queueCap : Nat) : CloudWatchLogs :=
  let tm : Target × Metric :=
    match c.getTargetFromMetric m with
    | Except.ok r => r
    | Except.error _ => ({ Group := "", Stream := "" }, m)
  let res := c.getDest tm.1 queueCap
  let cwd1 := res.1.switchToEMF
  let cwd2 := { cwd1 with pusher := { cwd1.pusher with retryDuration := metricRetryTimeout } }
  match res.2.getLogEventFromMetric tm.2 with
  | none => { res.2 with cwDests := setDest res.2.cwDests tm.1 cwd2 }
  | some e => { res.2 with cwDests := setDest res.2.cwDests tm.1 (cwd2.addEvent e).2 }

/-- An abstract operation on one destination, for invariants over call
sequences. -/
inductive CwOp where
  | publish (events : List LogEvent)
  | addEvent (e : LogEvent)
  | stop
  | switchToEMF
  | setRetryDuration (d : Nat)
deriving DecidableEq, Repr

def CwDest.applyOp (cd : CwDest) : CwOp → CwDest
  | CwOp.publish events => (cd.publish events).2
  | CwOp.addEvent e => (cd.addEvent e).2
  | CwOp.stop => cd.stop
  | CwOp.switchToEMF => cd.switchToEMF
  | CwOp.setRetryDuration d => { cd with pusher := { cd.pusher with retryDuration := d } }

def CwDest.applyOps (cd : CwDest) (ops : List CwOp) : CwDest :=
  ops.foldl CwDest.applyOp cd

/-- The target a metric resolves to inside writeMetricAsStructuredLog:
the classified target on success, the zero-valued Target on error. -/
def resolvedTarget (c : CloudWatchLogs) (m : Metric) : Target :=
  match c.getTargetFromMetric m with
  | Except.ok r => r.1
  | Except.error _ => { Group := "", Stream := "" }

-- Helper lemmas.

theorem findDest_setDest (l : List (Target × CwDest)) (t : Target) (d : CwDest) :
    findDest (setDest l t d) t = some d := by
  induction l with
  | nil => simp [setDest, findDest]
  | cons hd tl ih =>
    by_cases h : hd.1 = t
    · simp [setDest, findDest, h]
    · simp [setDest, findDest, h, ih]

theorem addEvent_snd_isEMF (cd : CwDest) (e : LogEvent) :
    (cd.addEvent e).2.isEMF = cd.isEMF := by
  unfold CwDest.addEvent
  by_cases h : cd.isEMF <;> simp [h]

theorem addEvent_snd_stopped (cd : CwDest) (e : LogEvent) :
    (cd.addEvent e).2.stopped = cd.stopped := by
  unfold CwDest.addEvent
  by_cases h : cd.isEMF <;> simp [h]

theorem addEvent_snd_headerCount (cd : CwDest) (e : LogEvent) :
    (cd.addEvent e).2.emfHeaderCount = cd.emfHeaderCount := by
  unfold CwDest.addEvent
  by_cases h : cd.isEMF <;> simp [h]

theorem addEvent_snd_retryDuration (cd : CwDest) (e : LogEvent) :
    (cd.addEvent e).2.pusher.retryDuration = cd.pusher.retryDuration := by
  unfold CwDest.addEvent Pusher.addEventNonBlocking Pusher.addEventBlocking
  by_cases h : cd.isEMF <;> by_cases h2 : cd.pusher.queue.length < cd.pusher.queueCap <;>
    simp [h, h2]

theorem switchToEMF_isEMF (cd : CwDest) : cd.switchToEMF.isEMF = true := by
  unfold CwDest.switchToEMF
  by_cases h : cd.isEMF <;> simp [h]

theorem switchToEMF_stopped (cd : CwDest) : cd.switchToEMF.stopped = cd.stopped := by
  unfold CwDest.switchToEMF
  by_cases h : cd.isEMF <;> simp [h]

/-- The invariant tying the EMF flag to the number of header pushes: the
header handler has been attached at most once, and only after the switch. -/
def emfHeaderInv (cd : CwDest) : Prop :=
  cd.emfHeaderCount ≤ (if cd.isEMF then 1 else 0)

theorem switchToEMF_headerInv (cd : CwDest) (h : emfHeaderInv cd) :
    emfHeaderInv cd.switchToEMF := by
  unfold emfHeaderInv CwDest.switchToEMF at *
  by_cases he : cd.isEMF <;> by_cases hs : cd.serviceIsCWL <;> simp [he, hs] at * <;> omega

theorem publishOne_isEMF_mono (cd : CwDest) (e : LogEvent) (h : cd.isEMF = true) :
    (cd.publishOne e).isEMF = true := by
  unfold CwDest.publishOne
  simp [h, addEvent_snd_isEMF]

theorem publishOne_stopped (cd : CwDest) (e : LogEvent) :
    (cd.publishOne e).stopped = cd.stopped := by
  unfold CwDest.publishOne
  by_cases h : (!cd.isEMF && emfPayloadDetect e.msg) = true <;>
    simp [h, addEvent_snd_stopped, switchToEMF_stopped]

theorem publishOne_headerInv (cd : CwDest) (e : LogEvent) (h : emfHeaderInv cd) :
    emfHeaderInv (cd.publishOne e) := by
  unfold CwDest.publishOne
  by_cases hc : (!cd.isEMF && emfPayloadDetect e.msg) = true
  · simp only [hc, if_true]
    have h1 := switchToEMF_headerInv cd h
    unfold emfHeaderInv at *
    rw [addEvent_snd_headerCount, addEvent_snd_isEMF]
    exact h1
  · simp only [hc, if_false]
    unfold emfHeaderInv at *
    rw [addEvent_snd_headerCount, addEvent_snd_isEMF]
    exact h

theorem publishFold_isEMF_mono (events : List LogEvent) (cd : CwDest) (h : cd.isEMF = true) :
    (events.foldl CwDest.publishOne cd).isEMF = true := by
  induction events generalizing cd with
  | nil => simpa
  | cons hd tl ih => exact ih _ (publishOne_isEMF_mono cd hd h)

theorem publishFold_stopped (events : List LogEvent) (cd : CwDest) :
    (events.foldl CwDest.publishOne cd).stopped = cd.stopped := by
  induction events generalizing cd with
  | nil => rfl
  | cons hd tl ih => rw [List.foldl_cons, ih, publishOne_stopped]

theorem publishFold_headerInv (events : List LogEvent) (cd : CwDest) (h : emfHeaderInv cd) :
    emfHeaderInv (events.foldl CwDest.publishOne cd) := by
  induction events generalizing cd with
  | nil => simpa
  | cons hd tl ih => exact ih _ (publishOne_headerInv cd hd h)

theorem applyOp_isEMF_mono (cd : CwDest) (op : CwOp) (h : cd.isEMF = true) :
    (cd.applyOp op).isEMF = true := by
  cases op with
  | publish events =>
    unfold CwDest.applyOp CwDest.publish
    by_cases hs : (events.foldl CwDest.publishOne cd).stopped <;>
      simp [hs, publishFold_isEMF_mono events cd h]
  | addEvent e => simpa [CwDest.applyOp, addEvent_snd_isEMF] using h
  | stop => simpa [CwDest.applyOp, CwDest.stop] using h
  | switchToEMF => simpa [CwDest.applyOp] using switchToEMF_isEMF cd
  | setRetryDuration d => simpa [CwDest.applyOp] using h

theorem applyOp_stopped_mono (cd : CwDest) (op : CwOp) (h : cd.stopped = true) :
    (cd.applyOp op).stopped = true := by
  cases op with
  | publish events =>
    unfold CwDest.applyOp CwDest.publish
    by_cases hs : (events.foldl CwDest.publishOne cd).stopped <;>
      simp_all [publishFold_stopped]
  | addEvent e => simpa [CwDest.applyOp, addEvent_snd_stopped] using h
  | stop => simp [CwDest.applyOp, CwDest.stop]
  | switchToEMF => simpa [CwDest.applyOp, switchToEMF_stopped] using h
  | setRetryDuration d => simpa [CwDest.applyOp] using h

theorem applyOp_headerInv (cd : CwDest) (op : CwOp) (h : emfHeaderInv cd) :
    emfHeaderInv (cd.applyOp op) := by
  cases op with
  | publish events =>
    unfold CwDest.applyOp CwDest.publish
    by_cases hs : (events.foldl CwDest.publishOne cd).stopped <;>
      simp [hs, publishFold_headerInv events cd h]
  | addEvent e =>
    unfold emfHeaderInv at *
    simpa [CwDest.applyOp, addEvent_snd_headerCount, addEvent_snd_isEMF] using h
  | stop => exact h
  | switchToEMF => exact switchToEMF_headerInv cd h
  | setRetryDuration d => exact h

theorem applyOps_isEMF_mono (ops : List CwOp) (cd : CwDest) (h : cd.isEMF = true) :
    (cd.applyOps ops).isEMF = true := by
  induction ops generalizing cd with
  | nil => simpa [CwDest.applyOps]
  | cons hd tl ih => exact ih _ (applyOp_isEMF_mono cd hd h)

theorem applyOps_stopped_mono (ops : List CwOp) (cd : CwDest) (h : cd.stopped = true) :
    (cd.applyOps ops).stopped = true := by
  induction ops generalizing cd with
  | nil => simpa [CwDest.applyOps]
  | cons hd tl ih => exact ih _ (applyOp_stopped_mono cd hd h)

theorem applyOps_headerInv (ops : List CwOp) (cd : CwDest) (h : emfHeaderInv cd) :
    emfHeaderInv (cd.applyOps ops) := by
  induction ops generalizing cd with
  | nil => simpa [CwDest.applyOps]
  | cons hd tl ih => exact ih _ (applyOp_headerInv cd hd h)

theorem convertFields_mem_other (fields : List (String × GoValue)) (k d : String)
    (content : List (String × GoValue)) (hmem : (k, GoValue.goOther d) ∈ fields) :
    convertFields content fields = none := by
  induction fields generalizing content with
  | nil => cases hmem
  | cons hd tl ih =>
    rcases List.mem_cons.mp hmem with heq | htl
    · rw [← heq]; rfl
    · cases hcv : convertFieldValue hd.2 with
      | none => simp [convertFields, hcv]
      | some value => simpa [convertFields, hcv] using ih _ htl

-- Sample data for witnesses.

def c2Config : CloudWatchLogs :=
  { LogGroupName := "G", LogStreamName := "S",
    forceFlushInterval := defaultFlushTimeout, cwDests := [] }

def c2Target : Target := { Group := "g", Stream := "s" }

def c3Dest : CwDest :=
  { pusher := { target := { Group := "g", Stream := "s" }, flushInterval := defaultFlushTimeout,
                retryDuration := maxRetryTimeout, queueCap := 3, queue := [] }
    isEMF := true, stopped := false, serviceIsCWL := true, emfHeaderCount := 1 }

def c3Config : CloudWatchLogs :=
  { LogGroupName := "G", LogStreamName := "S",
    forceFlushInterval := defaultFlushTimeout, cwDests := [] }

def c3Target : Target := { Group := "g", Stream := "s" }

def c3Ops : List CwOp :=
  [CwOp.publish [{ msg := "hello", time := 2 }], CwOp.switchToEMF,
   CwOp.addEvent { msg := "new", time := 1 }]

def c4Dest : CwDest :=
  { pusher := { target := { Group := "g", Stream := "s" }, flushInterval := defaultFlushTimeout,
                retryDuration := maxRetryTimeout, queueCap := 3, queue := [] }
    isEMF := false, stopped := false, serviceIsCWL := true, emfHeaderCount := 0 }

def c4Event : LogEvent := { msg := "\x7b\"CloudWatchMetrics\":[]\x7d", time := 1 }

def c7DestEmf : CwDest :=
  { pusher := { target := { Group := "g", Stream := "s" }, flushInterval := defaultFlushTimeout,
                retryDuration := maxRetryTimeout, queueCap := 1,
                queue := [{ msg := "old", time := 0 }] }
    isEMF := true, stopped := false, serviceIsCWL := true, emfHeaderCount := 1 }

def c7DestPlain : CwDest :=
  { pusher := { target := { Group := "g", Stream := "s" }, flushInterval := defaultFlushTimeout,
                retryDuration := maxRetryTimeout, queueCap := 2,
                queue := [{ msg := "old", time := 0 }] }
    isEMF := false, stopped := false, serviceIsCWL := true, emfHeaderCount := 0 }

def c7Event : LogEvent := { msg := "new", time := 1 }

def c8Dest : CwDest :=
  { pusher := { target := { Group := "g", Stream := "s" }, flushInterval := defaultFlushTimeout,
                retryDuration := maxRetryTimeout, queueCap := 3, queue := [] }
    isEMF := false, stopped := false, serviceIsCWL := true, emfHeaderCount := 0 }

def c8Events : List LogEvent := [{ msg := "hello", time := 2 }]

-- Claim theorems.

/-- Claim C2: getDest is idempotent. On a map miss it inserts the newly
constructed destination (with its freshly built pusher) into cwDests and
returns it; a subsequent call on the resulting state for the same
(group, stream) target returns that same stored destination and leaves
the state unchanged, constructing no new pipeline (the second call may
even carry a different pusher capacity parameter: it is never used). -/
theorem c2_getDest_idempotent (c : CloudWatchLogs) (t : Target) (cap cap2 : Nat) :
    (findDest c.cwDests t = none →
      c.getDest t cap =
        (newCwDest c t cap,
          { c with cwDests := setDest c.cwDests t (newCwDest c t cap) })) ∧
    (c.getDest t cap).2.getDest t cap2 = ((c.getDest t cap).1, (c.getDest t cap).2) := by
  constructor
  · intro h
    unfold CloudWatchLogs.getDest
    simp [h]
  · unfold CloudWatchLogs.getDest
    cases hf : findDest c.cwDests t with
    | some cwd => simp [hf]
    | none => simp [hf, findDest_setDest]

/-- Witness for C2 at a concrete empty router state. -/
theorem c2_getDest_idempotent_witness :
    c2Config.getDest c2Target 5 =
      (newCwDest c2Config c2Target 5,
        { c2Config with
            cwDests := setDest c2Config.cwDests c2Target (newCwDest c2Config c2Target 5) }) ∧
    (c2Config.getDest c2Target 5).2.getDest c2Target 7 =
      ((c2Config.getDest c2Target 5).1, (c2Config.getDest c2Target 5).2) :=
  ⟨(c2_getDest_idempotent c2Config c2Target 5 7).1 rfl,
   (c2_getDest_idempotent c2Config c2Target 5 7).2⟩

/-- Claim C3: the per-destination mode is monotonic and one-way. A fresh
destination starts with isEMF false and no EMF header attached;
switchToEMF is idempotent; no operation in any sequence of destination
operations resets isEMF once true; the header-count invariant is
preserved by every operation sequence; and starting from a fresh
destination the x-amzn-logs-format header handler is attached at most
once over any sequence of operations. -/
theorem c3_emf_monotonic (c : CloudWatchLogs) (t : Target) (cap : Nat) (cd : CwDest)
    (ops : List CwOp) :
    (newCwDest c t cap).isEMF = false ∧
    cd.switchToEMF.switchToEMF = cd.switchToEMF ∧
    (cd.isEMF = true → (cd.applyOps ops).isEMF = true) ∧
    (emfHeaderInv cd → emfHeaderInv (cd.applyOps ops)) ∧
    ((newCwDest c t cap).applyOps ops).emfHeaderCount ≤ 1 := by
  refine ⟨rfl, ?_, applyOps_isEMF_mono ops cd, applyOps_headerInv ops cd, ?_⟩
  · by_cases h : cd.isEMF = true <;> simp [CwDest.switchToEMF, h]
  · have hinv : emfHeaderInv (newCwDest c t cap) := by
      unfold emfHeaderInv newCwDest; simp
    have h2 := applyOps_headerInv ops (newCwDest c t cap) hinv
    unfold emfHeaderInv at h2
    by_cases he : ((newCwDest c t cap).applyOps ops).isEMF = true <;> simp [he] at h2 <;> omega

/-- Witness for C3: a destination already in EMF mode with the header
attached once, run through a concrete operation sequence. -/
theorem c3_emf_monotonic_witness :
    (c3Dest.applyOps c3Ops).isEMF = true ∧
    emfHeaderInv (c3Dest.applyOps c3Ops) ∧
    ((newCwDest c3Config c3Target 3).applyOps c3Ops).emfHeaderCount ≤ 1 :=
  ⟨(c3_emf_monotonic c3Config c3Target 3 c3Dest c3Ops).2.2.1 rfl,
   (c3_emf_monotonic c3Config c3Target 3 c3Dest c3Ops).2.2.2.1
      (by unfold emfHeaderInv c3Dest; simp),
   (c3_emf_monotonic c3Config c3Target 3 c3Dest c3Ops).2.2.2.2⟩

/-- Claim C4: while a destination is in plain mode, one step of the
Publish loop switches it to EMF mode exactly when the message starts
with an opening brace, ends with a closing brace, and contains the
quoted CloudWatchMetrics substring; a message failing any of the three
checks leaves the mode at plain. -/
theorem c4_plain_mode_emf_autodetect (cd : CwDest) (e : LogEvent) (h : cd.isEMF = false) :
    (cd.publishOne e).isEMF = true ↔
      (strStartsWith e.msg "\x7b" = true ∧ strEndsWith e.msg "\x7d" = true ∧
        strContainsSub e.msg "\"CloudWatchMetrics\"" = true) := by
  unfold CwDest.publishOne
  by_cases hd : emfPayloadDetect e.msg = true
  · simp only [h, Bool.not_false, Bool.true_and, hd, if_true, addEvent_snd_isEMF,
      switchToEMF_isEMF, true_iff]
    simpa [emfPayloadDetect, Bool.and_eq_true, and_assoc] using hd
  · have hd' : emfPayloadDetect e.msg = false := by simpa using hd
    simp only [h, Bool.not_false, Bool.true_and, hd', if_false, addEvent_snd_isEMF,
      Bool.false_eq_true, false_iff]
    intro hcontra
    apply hd
    simpa [emfPayloadDetect, Bool.and_eq_true, and_assoc] using hcontra

/-- Witness for C4: a fresh plain-mode destination and a concrete
EMF-shaped message flip the mode. -/
theorem c4_plain_mode_emf_autodetect_witness :
    (c4Dest.publishOne c4Event).isEMF = true :=
  (c4_plain_mode_emf_autodetect c4Dest c4Event rfl).mpr ⟨by decide, by decide, by decide⟩

/-- Claim C7: AddEvent dispatches to the non-blocking pusher enqueue
exactly when the destination is in EMF mode and to the blocking enqueue
exactly when it is in plain mode; the non-blocking enqueue drops the
newest event when the queue is full and appends it when there is room,
while the blocking enqueue always ends with the event appended. -/
theorem c7_enqueue_discipline (cd : CwDest) (e : LogEvent) (p : Pusher) :
    ((cd.addEvent e).1 = EnqueueKind.nonBlocking ↔ cd.isEMF = true) ∧
    ((cd.addEvent e).1 = EnqueueKind.blocking ↔ cd.isEMF = false) ∧
    (cd.isEMF = true → (cd.addEvent e).2.pusher = cd.pusher.addEventNonBlocking e) ∧
    (cd.isEMF = false → (cd.addEvent e).2.pusher = cd.pusher.addEventBlocking e) ∧
    (p.queueCap ≤ p.queue.length → p.addEventNonBlocking e = p) ∧
    (p.queue.length < p.queueCap → (p.addEventNonBlocking e).queue = p.queue ++ [e]) ∧
    (p.addEventBlocking e).queue = p.queue ++ [e] := by
  refine ⟨?_, ?_, ?_, ?_, ?_, ?_, rfl⟩
  · unfold CwDest.addEvent
    by_cases h : cd.isEMF = true <;> simp [h]
  · unfold CwDest.addEvent
    by_cases h : cd.isEMF = true <;> simp [h]
  · intro h; unfold CwDest.addEvent; simp [h]
  · intro h; unfold CwDest.addEvent; simp [h]
  · intro h; unfold Pusher.addEventNonBlocking
    have h2 : ¬ p.queue.length < p.queueCap := by omega
    simp [h2]
  · intro h; unfold Pusher.addEventNonBlocking; simp [h]

/-- Witness for C7: an EMF destination with a full queue drops the new
event; a plain destination enqueues it blocking. -/
theorem c7_enqueue_discipline_witness :
    (c7DestEmf.addEvent c7Event).1 = EnqueueKind.nonBlocking ∧
    (c7DestEmf.addEvent c7Event).2.pusher = c7DestEmf.pusher.addEventNonBlocking c7Event ∧
    c7DestEmf.pusher.addEventNonBlocking c7Event = c7DestEmf.pusher ∧
    (c7DestPlain.addEvent c7Event).1 = EnqueueKind.blocking ∧
    (c7DestPlain.pusher.addEventNonBlocking c7Event).queue =
      c7DestPlain.pusher.queue ++ [c7Event] :=
  ⟨(c7_enqueue_discipline c7DestEmf c7Event c7DestEmf.pusher).1.mpr rfl,
   (c7_enqueue_discipline c7DestEmf c7Event c7DestEmf.pusher).2.2.1 rfl,
   (c7_enqueue_discipline c7DestEmf c7Event c7DestEmf.pusher).2.2.2.2.1 (by decide),
   (c7_enqueue_discipline c7DestPlain c7Event c7DestPlain.pusher).2.1.mpr rfl,
   (c7_enqueue_discipline c7DestPlain c7Event c7DestPlain.pusher).2.2.2.2.2.1 (by decide)⟩

/-- Claim C8: Stop sets the stopped flag; after Stop, any further
sequence of operations leaves the destination stopped and every Publish
call returns the terminal output-stopped error; before Stop (stopped
flag clear) Publish returns no error. -/
theorem c8_stop_terminal (cd : CwDest) (ops : List CwOp) (events evs : List LogEvent) :
    cd.stop.stopped = true ∧
    ((cd.stop.applyOps ops).publish events).1 = some ErrOutputStopped ∧
    (cd.stopped = false → (cd.publish evs).1 = none) := by
  refine ⟨rfl, ?_, ?_⟩
  · have hstop : (cd.stop.applyOps ops).stopped = true :=
      applyOps_stopped_mono ops cd.stop rfl
    unfold CwDest.publish
    simp [publishFold_stopped, hstop]
  · intro h
    unfold CwDest.publish
    simp [publishFold_stopped, h]

/-- Witness for C8 at a concrete destination and event list. -/
theorem c8_stop_terminal_witness :
    ((c8Dest.stop.applyOps [CwOp.addEvent c7Event]).publish c8Events).1 =
      some ErrOutputStopped ∧
    (c8Dest.publish c8Events).1 = none :=
  ⟨(c8_stop_terminal c8Dest [CwOp.addEvent c7Event] c8Events c8Events).2.1,
   (c8_stop_terminal c8Dest [CwOp.addEvent c7Event] c8Events c8Events).2.2 rfl⟩

/-- Claim C10: CreateDest substitutes the configured default group name
for an empty group argument and the configured default stream name for
an empty stream argument before forming the Target, so the empty-string
call and the call naming the configured defaults resolve to the same
destination (identical result and state). -/
theorem c10_createDest_defaults (c : CloudWatchLogs) (group stream : String) (cap : Nat) :
    c.createDest group stream cap =
      c.getDest { Group := if group = "" then c.LogGroupName else group,
                  Stream := if stream = "" then c.LogStreamName else stream } cap ∧
    c.createDest "" "" cap = c.createDest c.LogGroupName c.LogStreamName cap := by
  constructor
  · rfl
  · unfold CloudWatchLogs.createDest
    by_cases hg : c.LogGroupName = "" <;> by_cases hs : c.LogStreamName = "" <;>
      simp [hg, hs]

-- Sample data for the remaining claims.

def c1Config : CloudWatchLogs :=
  { LogGroupName := "G", LogStreamName := "S",
    forceFlushInterval := defaultFlushTimeout, cwDests := [] }

def c1Metric : Metric :=
  { name := "cpu", tags := [("host", "h1")],
    fields := [("usage", GoValue.goFloat64 (F64.val 99))], time := 7 }

def c5Config : CloudWatchLogs :=
  { LogGroupName := "G", LogStreamName := "S",
    forceFlushInterval := defaultFlushTimeout, cwDests := [] }

def c5Metric : Metric :=
  { name := "cpu", tags := [(LogGroupNameTag, "g")],
    fields := [("x", GoValue.goFloat64 F64.nan)], time := 3 }

/-- The metric as getLogEventFromMetric receives it on the metric path,
after getTargetFromMetric stripped the group tag. -/
def c5Reduced : Metric := c5Metric.removeTag LogGroupNameTag

def c6Config : CloudWatchLogs :=
  { LogGroupName := "G", LogStreamName := "S",
    forceFlushInterval := defaultFlushTimeout, cwDests := [] }

def c6Metric : Metric :=
  { name := "cpu", tags := [],
    fields := [("bad", GoValue.goOther "chan int")], time := 5 }

/-- Claim C1 evaluated against the code (the claim is what the spec
states; the code differs). A record without the log_group_name tag makes
getTargetFromMetric fail, and the error is logged — but
writeMetricAsStructuredLog does not return: it continues with the
zero-valued Target, so a destination for the empty (group, stream) pair
is created in cwDests (the map is not unchanged), switched to EMF, and
the event built from the unclassified record is enqueued there. -/
theorem c1_missing_group_still_creates_destination :
    c1Config.getTargetFromMetric c1Metric =
      Except.error
        "structuredlog receive a metric with name cpu without log group name" ∧
    c1Config.cwDests = [] ∧
    ((findDest (c1Config.writeMetricAsStructuredLog c1Metric 4).cwDests
        { Group := "", Stream := "" }).map
      (fun d => (d.isEMF, d.pusher.retryDuration, d.pusher.queue))) =
      some (true, metricRetryTimeout,
        [{ msg := "\x7b\"host\":\"h1\",\"usage\":99\x7d", time := 7 }]) :=
  ⟨rfl, rfl, by decide⟩

/-- Claim C5 as stated is false on the code: serialization failure does
not drop the record. At a concrete metric whose content map holds a NaN
float, buildContent succeeds, marshalContent fails, and yet
getLogEventFromMetric produces an event (whose message is the string of
the nil byte slice, i.e. empty) which writeMetricAsStructuredLog then
enqueues at the resolved target. -/
theorem c5_counterexample_marshal_failure_event_produced :
    buildContent c5Reduced = some [("x", GoValue.goFloat64 F64.nan)] ∧
    marshalContent [("x", GoValue.goFloat64 F64.nan)] = none ∧
    c5Config.getLogEventFromMetric c5Reduced = some { msg := "", time := 3 } ∧
    ((findDest (c5Config.writeMetricAsStructuredLog c5Metric 4).cwDests
        { Group := "g", Stream := "S" }).map (fun d => d.pusher.queue)) =
      some [{ msg := "", time := 3 }] :=
  ⟨by decide, by decide, by decide, by decide⟩

/-- Claim C5, amended: for a metric-shaped record (no raw value field)
whose content map serializes with an error, the failure is only logged;
an event is still produced, carrying the empty message, and it is
enqueued like any other event. -/
theorem c5_marshal_failure_still_produces_event (c : CloudWatchLogs) (m : Metric)
    (content : List (String × GoValue))
    (hnv : m.hasField LogEntryField = false)
    (hbc : buildContent m = some content)
    (hmf : marshalContent content = none) :
    c.getLogEventFromMetric m = some { msg := "", time := m.time } := by
  unfold CloudWatchLogs.getLogEventFromMetric
  simp [hnv, hbc, hmf]

/-- Witness for the amended C5 at the concrete NaN-content metric. -/
theorem c5_marshal_failure_still_produces_event_witness :
    c5Config.getLogEventFromMetric c5Reduced = some { msg := "", time := c5Reduced.time } :=
  c5_marshal_failure_still_produces_event c5Config c5Reduced
    [("x", GoValue.goFloat64 F64.nan)] (by decide) (by decide) (by decide)

/-- Claim C6: remaining fields convert as the switch prescribes — every
numeric type (int, int32, int64, uint, uint32, uint64, float64) to a
64-bit float, bool and string unchanged, time.Time to Unix seconds as a
float — and a record with a remaining field of any other type fails
classification as a whole: getLogEventFromMetric produces no event. -/
theorem c6_unsupported_field_fails_record (c : CloudWatchLogs) (m : Metric)
    (k d : String) (v : Int) (n : Nat) (f : F64) (b : Bool) (s : String) (u : Int) :
    convertFieldValue (GoValue.goInt v) = some (GoValue.goFloat64 (F64.val v)) ∧
    convertFieldValue (GoValue.goInt32 v) = some (GoValue.goFloat64 (F64.val v)) ∧
    convertFieldValue (GoValue.goInt64 v) = some (GoValue.goFloat64 (F64.val v)) ∧
    convertFieldValue (GoValue.goUInt n) = some (GoValue.goFloat64 (F64.val n)) ∧
    convertFieldValue (GoValue.goUInt32 n) = some (GoValue.goFloat64 (F64.val n)) ∧
    convertFieldValue (GoValue.goUInt64 n) = some (GoValue.goFloat64 (F64.val n)) ∧
    convertFieldValue (GoValue.goFloat64 f) = some (GoValue.goFloat64 f) ∧
    convertFieldValue (GoValue.goBool b) = some (GoValue.goBool b) ∧
    convertFieldValue (GoValue.goString s) = some (GoValue.goString s) ∧
    convertFieldValue (GoValue.goTime u) = some (GoValue.goFloat64 (F64.val u)) ∧
    convertFieldValue (GoValue.goOther d) = none ∧
    (m.hasField LogEntryField = false →
      (k, GoValue.goOther d) ∈ (promoteAttributes m).2.fields →
      c.getLogEventFromMetric m = none) := by
  refine ⟨rfl, rfl, rfl, rfl, rfl, rfl, rfl, rfl, rfl, rfl, rfl, ?_⟩
  intro hnv hmem
  have hbc : buildContent m = none := convertFields_mem_other _ k d _ hmem
  unfold CloudWatchLogs.getLogEventFromMetric
  simp [hnv, hbc]

/-- Witness for C6 at a concrete metric with an unsupported field. -/
theorem c6_unsupported_field_fails_record_witness :
    c6Config.getLogEventFromMetric c6Metric = none :=
  (c6_unsupported_field_fails_record c6Config c6Metric "bad" "chan int"
      0 0 (F64.val 0) true "" 0).2.2.2.2.2.2.2.2.2.2.2 (by decide) (by decide)

/-- Claim C9: every record written through the metric path leaves the
destination for the resolved target with its retry duration set to the
fixed metric retry timeout, regardless of the plugin configuration; the
two timeouts have exactly the source values (2 minutes resp. 14 days
and 10 minutes), the metric one strictly shorter; destinations are
created with the long default. -/
theorem c9_metric_retry_timeout_fixed (c : CloudWatchLogs) (m : Metric) (t : Target)
    (cap : Nat) :
    (∃ d, findDest (c.writeMetricAsStructuredLog m cap).cwDests (resolvedTarget c m) =
        some d ∧ d.pusher.retryDuration = metricRetryTimeout) ∧
    metricRetryTimeout = 2 * timeMinute ∧
    maxRetryTimeout = 14 * 24 * timeHour + 10 * timeMinute ∧
    metricRetryTimeout < maxRetryTimeout ∧
    (newCwDest c t cap).pusher.retryDuration = maxRetryTimeout := by
  refine ⟨?_, rfl, rfl, by decide, rfl⟩
  unfold CloudWatchLogs.writeMetricAsStructuredLog resolvedTarget
  cases hgt : c.getTargetFromMetric m with
  | ok r =>
    simp only [hgt]
    cases hev : (c.getDest r.1 cap).2.getLogEventFromMetric r.2 with
    | none =>
      simp only [hev]
      exact ⟨_, findDest_setDest _ _ _, rfl⟩
    | some e =>
      simp only [hev]
      exact ⟨_, findDest_setDest _ _ _, by rw [addEvent_snd_retryDuration]⟩
  | error err =>
    simp only [hgt]
    cases hev : (c.getDest { Group := "", Stream := "" } cap).2.getLogEventFromMetric m with
    | none =>
      simp only [hev]
      exact ⟨_, findDest_setDest _ _ _, rfl⟩
    | some e =>
      simp only [hev]
      exact ⟨_, findDest_setDest _ _ _, by rw [addEvent_snd_retryDuration]⟩
